import Mathlib

/-!
Shallow embedding of `src/components/sections/ReserveSection.tsx`
(NFT-Landing-Page): the whitelist reservation component.

The component keeps five state hooks (`selectedCount`, `whitelist`,
`totalReserved`, `loading`, `expanded`).  The reservation workflow
`handleReserve` guards on wallet presence, chain id 33139 and the 333 cap,
sends a value transfer of `selectedCount * 2` ether, merges or appends the
wallet's entry into the whitelist, and persists via
`updateWhitelist(walletAddress, selectedCount)`.  Side effects (alerts,
the transaction, the remote write) are modelled as an event trace;
external outcomes (chain id, transaction success or failure, persistence
failure) are inputs to the embedded function.
-/

/-- A whitelist entry, `{ address: string; count: number }` (line 21). -/
structure Entry where
  address : String
  count : Nat
deriving DecidableEq, Repr

/-- The component's state hooks (lines 20-24). -/
structure ComponentState where
  selectedCount : Nat
  whitelist : List Entry
  totalReserved : Nat
  loading : Bool
  expanded : Bool
deriving DecidableEq, Repr

/-- The initial hook values (lines 20-24): count 1, empty list, 0, false, false. -/
def initialState : ComponentState :=
  { selectedCount := 1, whitelist := [], totalReserved := 0,
    loading := false, expanded := false }

/-- Line 32: `fetchedWhitelist.reduce((total, entry) => total + entry.count, 0)`. -/
def countSum (l : List Entry) : Nat :=
  l.foldl (fun total entry => total + entry.count) 0

/-- Lines 27-37, `loadWhitelist`: store the fetched list and its count sum. -/
def loadWhitelist (fetched : List Entry) (s : ComponentState) : ComponentState :=
  { s with whitelist := fetched, totalReserved := countSum fetched }

/-- An SDK error object as inspected by the catch branch (lines 87-104):
the `code`, `reason` and `message` fields, each possibly absent. -/
structure TxError where
  code : Option String
  reason : Option String
  message : Option String
deriving DecidableEq, Repr

/-- Outcome of `signer.sendTransaction` followed by `tx.wait` (lines 64-69):
the submission itself may throw, the wait may throw, or the transfer confirms. -/
inductive TxOutcome where
  | sendFailed (e : TxError)
  | waitFailed (e : TxError)
  | confirmed
deriving DecidableEq, Repr

/-- Observable side effects of one `handleReserve` run, in program order. -/
inductive Event where
  | alert (msg : String)
  | switchChain
  | sendTransaction (dest : String) (value : Nat)
  | txWait
  | localUpdate
  | persistUpdate (address : String) (count : Nat)
deriving DecidableEq, Repr

/-- Line 43. -/
def connectWalletMsg : String := "Please connect your wallet to proceed."

/-- Line 59. -/
def limitReachedMsg : String := "Reservation limit reached. Please select fewer spots."

/-- Line 86. -/
def successMsg : String := "Reservation successful!"

/-- Lines 91-93. -/
def insufficientFundsMsg : String :=
  "You do not have enough ETH to complete this reservation. Please check your balance and try again."

/-- Lines 95-97. -/
def callExceptionMsg : String := "Transaction failed. Please ensure you have enough funds."

/-- Line 102. -/
def genericFallbackMsg : String := "An unexpected error occurred. Please try again."

/-- JavaScript `a || b` on an optional string field: `undefined` and the
empty string are falsy, so either falls through to `b`. -/
def jsOrElse (a : Option String) (b : String) : String :=
  match a with
  | none => b
  | some str => if str = "" then b else str

/-- Lines 90-104: the catch branch maps an SDK error to the alert string. -/
def classifyError (e : TxError) : String :=
  if e.code = some "INSUFFICIENT_FUNDS" then insufficientFundsMsg
  else if e.code = some "CALL_EXCEPTION" then callExceptionMsg
  else jsOrElse e.reason (jsOrElse e.message genericFallbackMsg)

/-- Decimal parsing of a digit string, the integral fragment of what
`ethers.parseEther` accepts (line 63 only ever passes the decimal rendering
of `selectedCount * 2`, a natural number). -/
def decimalToNat (s : String) : Option Nat :=
  if s.data ≠ [] ∧ s.data.all Char.isDigit then
    some (s.data.foldl (fun n c => n * 10 + (c.toNat - 48)) 0)
  else none

/-- `ethers.parseEther` on a nonnegative integer decimal string: the value in
wei, i.e. the parsed number of ether times `10 ^ 18`. -/
def parseEther (s : String) : Nat :=
  (decimalToNat s).getD 0 * 10 ^ 18

/-- Lines 71-79: increment the matching entry by `map`, then push a fresh
entry when `whitelist.some` finds no entry for the wallet. -/
def updatedWhitelistFor (wallet : String) (q : Nat) (l : List Entry) : List Entry :=
  let mapped := l.map (fun entry =>
    if entry.address = wallet then { entry with count := entry.count + q } else entry)
  if l.any (fun entry => entry.address == wallet) then mapped
  else mapped ++ [⟨wallet, q⟩]

/-- Lines 41-108, `handleReserve`.  Inputs beyond the component state:
the `walletAddress` prop, the `recipientAddress` prop, the chain id reported
by the provider, the outcome of the transfer, and whether the remote
`updateWhitelist` call throws (`some e`) or succeeds (`none`).  Returns the
state after the run and the event trace in program order.  The no-wallet
early return (lines 42-45) happens before `setLoading(true)` and outside the
try/finally, so it leaves `loading` untouched; every other path ends in the
`finally` that resets `loading` (lines 105-107). -/
def handleReserve (walletAddress : Option String) (recipientAddress : String)
    (chainId : Nat) (tx : TxOutcome) (persistError : Option TxError)
    (s : ComponentState) : ComponentState × List Event :=
  match walletAddress with
  | none => (s, [Event.alert connectWalletMsg])
  | some wallet =>
    let s1 : ComponentState := { s with loading := true }
    if chainId ≠ 33139 then
      ({ s1 with loading := false }, [Event.switchChain])
    else if s1.totalReserved + s1.selectedCount > 333 then
      ({ s1 with loading := false }, [Event.alert limitReachedMsg])
    else
      let amount := parseEther (Nat.repr (s1.selectedCount * 2))
      match tx with
      | TxOutcome.sendFailed e =>
          ({ s1 with loading := false },
            [Event.sendTransaction recipientAddress amount, Event.alert (classifyError e)])
      | TxOutcome.waitFailed e =>
          ({ s1 with loading := false },
            [Event.sendTransaction recipientAddress amount, Event.txWait,
              Event.alert (classifyError e)])
      | TxOutcome.confirmed =>
          let updated := updatedWhitelistFor wallet s1.selectedCount s1.whitelist
          let s2 : ComponentState :=
            { s1 with whitelist := updated,
                      totalReserved := s1.totalReserved + s1.selectedCount }
          match persistError with
          | some e =>
              ({ s2 with loading := false },
                [Event.sendTransaction recipientAddress amount, Event.txWait,
                  Event.localUpdate, Event.persistUpdate wallet s1.selectedCount,
                  Event.alert (classifyError e)])
          | none =>
              ({ s2 with loading := false },
                [Event.sendTransaction recipientAddress amount, Event.txWait,
                  Event.localUpdate, Event.persistUpdate wallet s1.selectedCount,
                  Event.alert successMsg])

/-- Line 111: `setExpanded((prev) => !prev)`. -/
def toggleExpanded (s : ComponentState) : ComponentState :=
  { s with expanded := !s.expanded }

/-- Line 113: `expanded ? whitelist : whitelist.slice(-10)`.  JavaScript
`slice(-10)` keeps the last `min(10, length)` elements, i.e. drops
`length - 10` (truncated at zero) from the front. -/
def displayedReservations (s : ComponentState) : List Entry :=
  if s.expanded then s.whitelist else s.whitelist.drop (s.whitelist.length - 10)

/-- Line 196: the Show All / Show Less button is rendered iff
`whitelist.length > 10`. -/
def showToggleRendered (s : ComponentState) : Bool :=
  decide (s.whitelist.length > 10)

/-- Line 138: `Total Agents available: {333 - totalReserved}`. -/
def totalAgentsAvailable (s : ComponentState) : Int :=
  333 - (s.totalReserved : Int)

/-- The addresses of a whitelist, in order. -/
def addresses (l : List Entry) : List String :=
  l.map Entry.address

/-- The data-model invariant on the entry list: at most one entry per address. -/
def addrNodup (l : List Entry) : Prop :=
  (addresses l).Nodup

instance (l : List Entry) : Decidable (addrNodup l) := by
  unfold addrNodup; infer_instance

/-- One user interaction on the mounted component: picking a quantity from
the 1-10 select (lines 143-155), toggling the list (line 197), or a
`handleReserve` run under any environment. -/
inductive Step : ComponentState → ComponentState → Prop where
  | select (s : ComponentState) (q : Nat) (h1 : 1 ≤ q) (h2 : q ≤ 10) :
      Step s { s with selectedCount := q }
  | toggle (s : ComponentState) : Step s (toggleExpanded s)
  | reserve (s : ComponentState) (w : Option String) (r : String) (chain : Nat)
      (tx : TxOutcome) (p : Option TxError) :
      Step s (handleReserve w r chain tx p s).1

/-- States reachable after the initial fetch (the remote store guarantees at
most one entry per address) followed by any number of interactions. -/
inductive Reachable : ComponentState → Prop where
  | init (fetched : List Entry) (h : addrNodup fetched) :
      Reachable (loadWhitelist fetched initialState)
  | step {s t : ComponentState} : Reachable s → Step s t → Reachable t

/-! ### Arithmetic facts about `countSum` -/

theorem countSum_foldl (t : List Entry) (a : Nat) :
    List.foldl (fun total entry => total + entry.count) a t = a + countSum t := by
  induction t generalizing a with
  | nil => simp [countSum]
  | cons x xs ih =>
    simp only [List.foldl_cons, countSum] at ih ⊢
    rw [ih (a + x.count), ih (0 + x.count)]
    omega

theorem countSum_cons (x : Entry) (xs : List Entry) :
    countSum (x :: xs) = x.count + countSum xs := by
  show List.foldl (fun total entry => total + entry.count) 0 (x :: xs) = _
  rw [List.foldl_cons, countSum_foldl]
  omega

theorem countSum_append (l1 l2 : List Entry) :
    countSum (l1 ++ l2) = countSum l1 + countSum l2 := by
  show List.foldl (fun total entry => total + entry.count) 0 (l1 ++ l2) = _
  rw [List.foldl_append]
  exact countSum_foldl l2 (countSum l1)

/-! ### The merge-or-append update -/

theorem addresses_cons (x : Entry) (xs : List Entry) :
    addresses (x :: xs) = x.address :: addresses xs := rfl

theorem any_addr_eq (l : List Entry) (w : String) :
    (l.any (fun entry => entry.address == w)) = true ↔ w ∈ addresses l := by
  simp [addresses, List.any_eq_true]

theorem map_incr_not_mem (w : String) (q : Nat) :
    ∀ l : List Entry, w ∉ addresses l →
      l.map (fun entry =>
        if entry.address = w then { entry with count := entry.count + q } else entry) = l := by
  intro l
  induction l with
  | nil => intro _; rfl
  | cons x xs ih =>
    intro h
    rw [addresses_cons, List.mem_cons, not_or] at h
    have h1 : ¬ x.address = w := fun he => h.1 he.symm
    rw [List.map_cons, if_neg h1, ih h.2]

theorem updatedWhitelistFor_of_any (w : String) (q : Nat) (l : List Entry)
    (h : (l.any (fun entry => entry.address == w)) = true) :
    updatedWhitelistFor w q l = l.map (fun entry =>
      if entry.address = w then { entry with count := entry.count + q } else entry) := by
  simp [updatedWhitelistFor, h]

theorem updatedWhitelistFor_not_mem (w : String) (q : Nat) (l : List Entry)
    (h : w ∉ addresses l) :
    updatedWhitelistFor w q l = l ++ [⟨w, q⟩] := by
  have hany : (l.any (fun entry => entry.address == w)) = false := by
    rw [← Bool.not_eq_true, any_addr_eq]
    exact h
  simp [updatedWhitelistFor, hany, map_incr_not_mem w q l h]

theorem updatedWhitelistFor_mem (w : String) (q : Nat) :
    ∀ l : List Entry, addrNodup l → w ∈ addresses l →
      ∃ l1 c l2, l = l1 ++ ⟨w, c⟩ :: l2 ∧
        updatedWhitelistFor w q l = l1 ++ ⟨w, c + q⟩ :: l2 ∧
        w ∉ addresses l1 ∧ w ∉ addresses l2 := by
  intro l
  induction l with
  | nil => intro _ hm; simp [addresses] at hm
  | cons x xs ih =>
    intro hnd hm
    rw [addrNodup, addresses_cons, List.nodup_cons] at hnd
    rw [addresses_cons, List.mem_cons] at hm
    rcases hm with hm | hm
    · refine ⟨[], x.count, xs, ?_, ?_, by simp [addresses], ?_⟩
      · cases x
        simp_all
      · have hany : ((x :: xs).any (fun entry => entry.address == w)) = true := by
          rw [any_addr_eq, addresses_cons, hm]
          exact List.mem_cons_self _ _
        rw [updatedWhitelistFor_of_any w q _ hany, List.map_cons, if_pos hm.symm,
          map_incr_not_mem w q xs (hm ▸ hnd.1)]
        cases x
        simp_all
      · exact hm ▸ hnd.1
    · have hxw : ¬ x.address = w := by
        intro he
        exact hnd.1 (he ▸ hm)
      obtain ⟨l1, c, l2, heq, hupd, h1, h2⟩ := ih hnd.2 hm
      refine ⟨x :: l1, c, l2, by rw [heq]; rfl, ?_, ?_, h2⟩
      · have hanyxs : (xs.any (fun entry => entry.address == w)) = true := by
          rw [any_addr_eq]
          exact hm
        have hany : ((x :: xs).any (fun entry => entry.address == w)) = true := by
          rw [List.any_cons, hanyxs, Bool.or_true]
        rw [updatedWhitelistFor_of_any w q _ hany, List.map_cons, if_neg hxw]
        rw [updatedWhitelistFor_of_any w q xs hanyxs] at hupd
        rw [hupd]
        rfl
      · rw [addresses_cons, List.mem_cons, not_or]
        exact ⟨fun he => hxw he.symm, h1⟩

theorem countSum_updated (w : String) (q : Nat) (l : List Entry) (hnd : addrNodup l) :
    countSum (updatedWhitelistFor w q l) = countSum l + q := by
  by_cases hm : w ∈ addresses l
  · obtain ⟨l1, c, l2, heq, hupd, _, _⟩ := updatedWhitelistFor_mem w q l hnd hm
    rw [hupd, heq]
    simp only [countSum_append, countSum_cons]
    omega
  · rw [updatedWhitelistFor_not_mem w q l hm, countSum_append, countSum_cons]
    show countSum l + (Entry.count ⟨w, q⟩ + countSum []) = countSum l + q
    simp [countSum]

theorem addresses_map_incr (w : String) (q : Nat) (l : List Entry) :
    addresses (l.map (fun entry =>
      if entry.address = w then { entry with count := entry.count + q } else entry)) =
      addresses l := by
  simp only [addresses, List.map_map]
  congr 1
  funext e
  by_cases he : e.address = w <;> simp [he]

theorem addrNodup_updated (w : String) (q : Nat) (l : List Entry) (hnd : addrNodup l) :
    addrNodup (updatedWhitelistFor w q l) := by
  by_cases hm : w ∈ addresses l
  · rw [updatedWhitelistFor_of_any w q l ((any_addr_eq l w).mpr hm), addrNodup,
      addresses_map_incr]
    exact hnd
  · rw [updatedWhitelistFor_not_mem w q l hm, addrNodup]
    have haddr : addresses (l ++ [⟨w, q⟩]) = addresses l ++ [w] := by
      simp [addresses]
    rw [haddr, List.nodup_append]
    refine ⟨hnd, List.nodup_singleton w, ?_⟩
    intro a ha hb
    rw [List.mem_singleton] at hb
    exact hm (hb ▸ ha)

/-! ### Case analysis of one `handleReserve` run -/

theorem handleReserve_fst_cases (w : Option String) (r : String) (chain : Nat)
    (tx : TxOutcome) (p : Option TxError) (s : ComponentState) :
    ((handleReserve w r chain tx p s).1.whitelist = s.whitelist ∧
      (handleReserve w r chain tx p s).1.totalReserved = s.totalReserved ∧
      (handleReserve w r chain tx p s).1.selectedCount = s.selectedCount) ∨
    (∃ wa, w = some wa ∧ chain = 33139 ∧ tx = TxOutcome.confirmed ∧
      s.totalReserved + s.selectedCount ≤ 333 ∧
      (handleReserve w r chain tx p s).1.whitelist =
        updatedWhitelistFor wa s.selectedCount s.whitelist ∧
      (handleReserve w r chain tx p s).1.totalReserved =
        s.totalReserved + s.selectedCount ∧
      (handleReserve w r chain tx p s).1.selectedCount = s.selectedCount) := by
  cases w with
  | none => left; simp [handleReserve]
  | some wa =>
    by_cases hc : chain = 33139
    · subst hc
      by_cases hcap : s.totalReserved + s.selectedCount > 333
      · left
        simp [handleReserve, hcap]
      · cases tx with
        | sendFailed e => left; simp [handleReserve, hcap]
        | waitFailed e => left; simp [handleReserve, hcap]
        | confirmed =>
          right
          refine ⟨wa, rfl, rfl, rfl, by omega, ?_, ?_, ?_⟩ <;>
            cases p <;> simp [handleReserve, hcap]
    · left
      simp [handleReserve, hc]

theorem handleReserve_preserves_aux (w : Option String) (r : String) (chain : Nat)
    (tx : TxOutcome) (p : Option TxError) (s : ComponentState)
    (hnd : addrNodup s.whitelist) (htot : s.totalReserved = countSum s.whitelist) :
    addrNodup (handleReserve w r chain tx p s).1.whitelist ∧
      (handleReserve w r chain tx p s).1.totalReserved =
        countSum (handleReserve w r chain tx p s).1.whitelist := by
  rcases handleReserve_fst_cases w r chain tx p s with
    ⟨hw, ht, _⟩ | ⟨wa, _, _, _, _, hw, ht, _⟩
  · rw [hw, ht]
    exact ⟨hnd, htot⟩
  · rw [hw, ht, countSum_updated wa s.selectedCount s.whitelist hnd, htot]
    exact ⟨addrNodup_updated wa s.selectedCount s.whitelist hnd, rfl⟩

theorem reachable_inv_aux (s : ComponentState) (h : Reachable s) :
    addrNodup s.whitelist ∧ s.totalReserved = countSum s.whitelist := by
  induction h with
  | init fetched hnd => exact ⟨hnd, rfl⟩
  | @step t u hs hstep ih =>
    cases hstep with
    | select q h1 h2 => exact ih
    | toggle => exact ih
    | reserve w r chain tx p => exact handleReserve_preserves_aux w r chain tx p t ih.1 ih.2

/-! ### The transfer amount -/

theorem parseEther_double (q : Nat) (h1 : 1 ≤ q) (h2 : q ≤ 10) :
    parseEther (Nat.repr (q * 2)) = q * 2 * 10 ^ 18 := by
  interval_cases q <;> decide

/-! ### Claim theorems -/

/-- C1: with a connected wallet on chain 33139 and
`totalReserved + selectedCount > 333`, `handleReserve` emits exactly the
limit alert — in particular it never reaches `sendTransaction` — and leaves
`whitelist` and `totalReserved` unchanged, whatever the environment would
have answered. -/
theorem handleReserve_cap_rejects (s : ComponentState) (w r : String)
    (tx : TxOutcome) (p : Option TxError)
    (hcap : s.totalReserved + s.selectedCount > 333) :
    (handleReserve (some w) r 33139 tx p s).2 = [Event.alert limitReachedMsg] ∧
    (∀ dest v, Event.sendTransaction dest v ∉ (handleReserve (some w) r 33139 tx p s).2) ∧
    (handleReserve (some w) r 33139 tx p s).1.whitelist = s.whitelist ∧
    (handleReserve (some w) r 33139 tx p s).1.totalReserved = s.totalReserved := by
  refine ⟨?_, ?_, ?_, ?_⟩ <;> simp [handleReserve, hcap]

/-- C1 witness: at `totalReserved = 330` a request for 5 spots is rejected
with the limit alert and the state is unchanged. -/
theorem handleReserve_cap_rejects_witness :
    (handleReserve (some "0xB") "0xR" 33139 TxOutcome.confirmed none
      { selectedCount := 5, whitelist := [⟨"0xA", 330⟩], totalReserved := 330,
        loading := false, expanded := false }).2 = [Event.alert limitReachedMsg] ∧
    (∀ dest v, Event.sendTransaction dest v ∉
      (handleReserve (some "0xB") "0xR" 33139 TxOutcome.confirmed none
        { selectedCount := 5, whitelist := [⟨"0xA", 330⟩], totalReserved := 330,
          loading := false, expanded := false }).2) ∧
    (handleReserve (some "0xB") "0xR" 33139 TxOutcome.confirmed none
      { selectedCount := 5, whitelist := [⟨"0xA", 330⟩], totalReserved := 330,
        loading := false, expanded := false }).1.whitelist = [⟨"0xA", 330⟩] ∧
    (handleReserve (some "0xB") "0xR" 33139 TxOutcome.confirmed none
      { selectedCount := 5, whitelist := [⟨"0xA", 330⟩], totalReserved := 330,
        loading := false, expanded := false }).1.totalReserved = 330 :=
  handleReserve_cap_rejects _ "0xB" "0xR" TxOutcome.confirmed none (by decide)

/-- C2: on a confirmed transfer under the cap, a wallet not yet on the
whitelist gets exactly one appended entry with its requested count, all
prior entries untouched; a wallet already on the (duplicate-free) whitelist
has its single entry incremented by the requested count, every other entry
untouched and no duplicate created. -/
theorem handleReserve_merge_or_append (s : ComponentState) (w r : String)
    (p : Option TxError) (hnd : addrNodup s.whitelist)
    (hcap : s.totalReserved + s.selectedCount ≤ 333) :
    (w ∉ addresses s.whitelist →
      (handleReserve (some w) r 33139 TxOutcome.confirmed p s).1.whitelist =
        s.whitelist ++ [⟨w, s.selectedCount⟩]) ∧
    (w ∈ addresses s.whitelist →
      ∃ l1 c l2, s.whitelist = l1 ++ ⟨w, c⟩ :: l2 ∧
        (handleReserve (some w) r 33139 TxOutcome.confirmed p s).1.whitelist =
          l1 ++ ⟨w, c + s.selectedCount⟩ :: l2 ∧
        w ∉ addresses l1 ∧ w ∉ addresses l2) := by
  have hc : ¬ (s.totalReserved + s.selectedCount > 333) := by omega
  have hwl : (handleReserve (some w) r 33139 TxOutcome.confirmed p s).1.whitelist =
      updatedWhitelistFor w s.selectedCount s.whitelist := by
    cases p <;> simp [handleReserve, hc]
  constructor
  · intro hm
    rw [hwl, updatedWhitelistFor_not_mem w _ _ hm]
  · intro hm
    obtain ⟨l1, c, l2, heq, hupd, hm1, hm2⟩ :=
      updatedWhitelistFor_mem w s.selectedCount s.whitelist hnd hm
    exact ⟨l1, c, l2, heq, by rw [hwl, hupd], hm1, hm2⟩

/-- A concrete state with a single prior reservation of 2 by address A and a
selected quantity of 3, used to instantiate theorems. -/
def repeatSample : ComponentState :=
  { selectedCount := 3, whitelist := [⟨"0xA", 2⟩], totalReserved := 2,
    loading := false, expanded := false }

/-- C2 witness: address A with count 2 requesting 3 ends with the single
entry count 5 and no duplicate. -/
theorem handleReserve_merge_or_append_witness :
    ("0xA" ∉ addresses repeatSample.whitelist →
      (handleReserve (some "0xA") "0xR" 33139 TxOutcome.confirmed none
        repeatSample).1.whitelist =
        repeatSample.whitelist ++ [⟨"0xA", repeatSample.selectedCount⟩]) ∧
    ("0xA" ∈ addresses repeatSample.whitelist →
      ∃ l1 c l2, repeatSample.whitelist = l1 ++ ⟨"0xA", c⟩ :: l2 ∧
        (handleReserve (some "0xA") "0xR" 33139 TxOutcome.confirmed none
          repeatSample).1.whitelist =
          l1 ++ ⟨"0xA", c + repeatSample.selectedCount⟩ :: l2 ∧
        "0xA" ∉ addresses l1 ∧ "0xA" ∉ addresses l2) :=
  handleReserve_merge_or_append repeatSample "0xA" "0xR" none (by decide) (by decide)

/-- C3 counterexample: from a prior count of 2 and a request of 3, the local
entry becomes count 5, but the value passed to `updateWhitelist` (line 84) is
the raw `selectedCount` 3, not the merged count 5. -/
theorem updateWhitelist_arg_cex :
    (handleReserve (some "0xA") "0xR" 33139 TxOutcome.confirmed none repeatSample).2 =
      [Event.sendTransaction "0xR" (6 * 10 ^ 18), Event.txWait, Event.localUpdate,
        Event.persistUpdate "0xA" 3, Event.alert successMsg] ∧
    (handleReserve (some "0xA") "0xR" 33139 TxOutcome.confirmed none
      repeatSample).1.whitelist = [⟨"0xA", 5⟩] ∧
    (3 : Nat) ≠ 5 := by
  refine ⟨?_, ?_, by decide⟩ <;> decide

/-- C3 (amended): after a confirmed transfer, the workflow invokes
`updateWhitelist(walletAddress, selectedCount)` with the requested quantity q
(the increment), and only with that quantity — it does not pass the merged
local count. -/
theorem handleReserve_persists_increment (s : ComponentState) (w r : String)
    (p : Option TxError) (hcap : s.totalReserved + s.selectedCount ≤ 333) :
    Event.persistUpdate w s.selectedCount ∈
      (handleReserve (some w) r 33139 TxOutcome.confirmed p s).2 ∧
    ∀ a c, Event.persistUpdate a c ∈
        (handleReserve (some w) r 33139 TxOutcome.confirmed p s).2 →
      a = w ∧ c = s.selectedCount := by
  have hc : ¬ (s.totalReserved + s.selectedCount > 333) := by omega
  cases p <;> simp [handleReserve, hc]

/-- C3 witness for the amended claim: the remote write carries address A and
count 3 from the concrete repeat state. -/
theorem handleReserve_persists_increment_witness :
    Event.persistUpdate "0xA" repeatSample.selectedCount ∈
      (handleReserve (some "0xA") "0xR" 33139 TxOutcome.confirmed none repeatSample).2 ∧
    ∀ a c, Event.persistUpdate a c ∈
        (handleReserve (some "0xA") "0xR" 33139 TxOutcome.confirmed none repeatSample).2 →
      a = "0xA" ∧ c = repeatSample.selectedCount :=
  handleReserve_persists_increment repeatSample "0xA" "0xR" none (by decide)

/-- C4: in every reachable state — right after the initial fetch and after
any number of interactions — `totalReserved` equals the whitelist's count
sum, so the displayed total available is 333 minus that sum. -/
theorem reachable_total_consistent (s : ComponentState) (h : Reachable s) :
    s.totalReserved = countSum s.whitelist ∧
    totalAgentsAvailable s = 333 - (countSum s.whitelist : Int) := by
  have hinv := reachable_inv_aux s h
  refine ⟨hinv.2, ?_⟩
  rw [totalAgentsAvailable, hinv.2]

/-- C4 witness: the state reached by fetching one entry of count 2 and then
reserving 3 more as address B satisfies the consistency property. -/
theorem reachable_total_consistent_witness :
    (handleReserve (some "0xB") "0xR" 33139 TxOutcome.confirmed none
      (loadWhitelist [⟨"0xA", 2⟩] initialState)).1.totalReserved =
      countSum (handleReserve (some "0xB") "0xR" 33139 TxOutcome.confirmed none
        (loadWhitelist [⟨"0xA", 2⟩] initialState)).1.whitelist ∧
    totalAgentsAvailable (handleReserve (some "0xB") "0xR" 33139 TxOutcome.confirmed none
      (loadWhitelist [⟨"0xA", 2⟩] initialState)).1 =
      333 - (countSum (handleReserve (some "0xB") "0xR" 33139 TxOutcome.confirmed none
        (loadWhitelist [⟨"0xA", 2⟩] initialState)).1.whitelist : Int) :=
  reachable_total_consistent _
    (Reachable.step (Reachable.init [⟨"0xA", 2⟩] (by decide))
      (Step.reserve _ (some "0xB") "0xR" 33139 TxOutcome.confirmed none))

/-- C5: from a component state whose whitelist has at most one entry per
address, count sum at most 333 and a consistent `totalReserved`, any
`handleReserve` run — rejected or successful, whatever the environment —
leaves a whitelist with at most one entry per address and count sum at
most 333. -/
theorem handleReserve_preserves_invariant (s : ComponentState) (w : Option String)
    (r : String) (chain : Nat) (tx : TxOutcome) (p : Option TxError)
    (hnd : addrNodup s.whitelist) (hsum : countSum s.whitelist ≤ 333)
    (htot : s.totalReserved = countSum s.whitelist) :
    addrNodup (handleReserve w r chain tx p s).1.whitelist ∧
    countSum (handleReserve w r chain tx p s).1.whitelist ≤ 333 := by
  rcases handleReserve_fst_cases w r chain tx p s with
    ⟨hw, _, _⟩ | ⟨wa, _, _, _, hcap, hw, _, _⟩
  · rw [hw]
    exact ⟨hnd, hsum⟩
  · rw [hw, countSum_updated wa s.selectedCount s.whitelist hnd]
    exact ⟨addrNodup_updated wa s.selectedCount s.whitelist hnd, by omega⟩

/-- C5 witness: a successful reservation of 3 by a fresh address from the
concrete repeat state keeps the invariant. -/
theorem handleReserve_preserves_invariant_witness :
    addrNodup (handleReserve (some "0xB") "0xR" 33139 TxOutcome.confirmed none
      repeatSample).1.whitelist ∧
    countSum (handleReserve (some "0xB") "0xR" 33139 TxOutcome.confirmed none
      repeatSample).1.whitelist ≤ 333 :=
  handleReserve_preserves_invariant repeatSample (some "0xB") "0xR" 33139
    TxOutcome.confirmed none (by decide) (by decide) (by decide)

/-- C6: for a selected quantity between 1 and 10, under the cap and on the
required chain, any submitted transfer goes to the `recipientAddress` prop
with value `selectedCount * 2` ether in wei; on confirmation the trace shows
the transfer and the wait strictly before the local state update, and without
confirmation no local update happens at all. -/
theorem handleReserve_transfer_value (s : ComponentState) (w r : String)
    (tx : TxOutcome) (p : Option TxError)
    (h1 : 1 ≤ s.selectedCount) (h2 : s.selectedCount ≤ 10)
    (hcap : s.totalReserved + s.selectedCount ≤ 333) :
    (∀ dest v, Event.sendTransaction dest v ∈ (handleReserve (some w) r 33139 tx p s).2 →
      dest = r ∧ v = s.selectedCount * 2 * 10 ^ 18) ∧
    (tx = TxOutcome.confirmed → ∃ tail,
      (handleReserve (some w) r 33139 tx p s).2 =
        Event.sendTransaction r (s.selectedCount * 2 * 10 ^ 18) :: Event.txWait ::
          Event.localUpdate :: tail) ∧
    (tx ≠ TxOutcome.confirmed →
      Event.localUpdate ∉ (handleReserve (some w) r 33139 tx p s).2 ∧
      (handleReserve (some w) r 33139 tx p s).1.whitelist = s.whitelist ∧
      (handleReserve (some w) r 33139 tx p s).1.totalReserved = s.totalReserved) := by
  have hc : ¬ (s.totalReserved + s.selectedCount > 333) := by omega
  have hpe := parseEther_double s.selectedCount h1 h2
  refine ⟨?_, ?_, ?_⟩
  · intro dest v hv
    cases tx <;> cases p <;> simp [handleReserve, hc, hpe] at hv <;> exact hv
  · intro htx
    subst htx
    cases p <;> simp [handleReserve, hc, hpe]
  · intro htx
    cases tx with
    | confirmed => exact absurd rfl htx
    | sendFailed e => refine ⟨?_, ?_, ?_⟩ <;> simp [handleReserve, hc]
    | waitFailed e => refine ⟨?_, ?_, ?_⟩ <;> simp [handleReserve, hc]

/-- C6 witness: from the concrete repeat state (quantity 3), a confirmed run
transfers 6 ether in wei to the recipient before the local update, and a
failed wait leaves the state unchanged. -/
theorem handleReserve_transfer_value_witness :
    (∀ dest v, Event.sendTransaction dest v ∈
        (handleReserve (some "0xA") "0xR" 33139 TxOutcome.confirmed none repeatSample).2 →
      dest = "0xR" ∧ v = repeatSample.selectedCount * 2 * 10 ^ 18) ∧
    (TxOutcome.confirmed = TxOutcome.confirmed → ∃ tail,
      (handleReserve (some "0xA") "0xR" 33139 TxOutcome.confirmed none repeatSample).2 =
        Event.sendTransaction "0xR" (repeatSample.selectedCount * 2 * 10 ^ 18) ::
          Event.txWait :: Event.localUpdate :: tail) ∧
    (TxOutcome.confirmed ≠ TxOutcome.confirmed →
      Event.localUpdate ∉
        (handleReserve (some "0xA") "0xR" 33139 TxOutcome.confirmed none repeatSample).2 ∧
      (handleReserve (some "0xA") "0xR" 33139 TxOutcome.confirmed none
        repeatSample).1.whitelist = repeatSample.whitelist ∧
      (handleReserve (some "0xA") "0xR" 33139 TxOutcome.confirmed none
        repeatSample).1.totalReserved = repeatSample.totalReserved) :=
  handleReserve_transfer_value repeatSample "0xA" "0xR" TxOutcome.confirmed none
    (by decide) (by decide) (by decide)

/-- C7: collapsed, the displayed list is the last 10 entries of the
whitelist in order (a suffix of length at most 10); expanded, it is the whole
list; toggling the expanded flag twice restores the state exactly. -/
theorem displayedReservations_spec (s : ComponentState) :
    (s.expanded = false →
      displayedReservations s = s.whitelist.drop (s.whitelist.length - 10) ∧
      (displayedReservations s).length ≤ 10 ∧
      displayedReservations s <:+ s.whitelist) ∧
    (s.expanded = true → displayedReservations s = s.whitelist) ∧
    toggleExpanded (toggleExpanded s) = s := by
  refine ⟨?_, ?_, ?_⟩
  · intro he
    have hd : displayedReservations s = s.whitelist.drop (s.whitelist.length - 10) := by
      simp [displayedReservations, he]
    refine ⟨hd, ?_, ?_⟩
    · rw [hd, List.length_drop]
      omega
    · rw [hd]
      exact List.drop_suffix _ _
  · intro he
    simp [displayedReservations, he]
  · cases s
    simp [toggleExpanded]

/-- C7 witness: on a collapsed state with 12 identical entries the display is
the last 10, of length 10, a suffix; double toggling is the identity. -/
theorem displayedReservations_spec_witness :
    displayedReservations
        { selectedCount := 1, whitelist := List.replicate 12 ⟨"0xA", 1⟩,
          totalReserved := 12, loading := false, expanded := false } =
      (List.replicate 12 (⟨"0xA", 1⟩ : Entry)).drop
        ((List.replicate 12 (⟨"0xA", 1⟩ : Entry)).length - 10) ∧
    (displayedReservations
        { selectedCount := 1, whitelist := List.replicate 12 ⟨"0xA", 1⟩,
          totalReserved := 12, loading := false, expanded := false }).length ≤ 10 ∧
    displayedReservations
        { selectedCount := 1, whitelist := List.replicate 12 ⟨"0xA", 1⟩,
          totalReserved := 12, loading := false, expanded := false } <:+
      List.replicate 12 (⟨"0xA", 1⟩ : Entry) ∧
    toggleExpanded (toggleExpanded
        { selectedCount := 1, whitelist := List.replicate 12 ⟨"0xA", 1⟩,
          totalReserved := 12, loading := false, expanded := false }) =
      { selectedCount := 1, whitelist := List.replicate 12 ⟨"0xA", 1⟩,
        totalReserved := 12, loading := false, expanded := false } := by
  obtain ⟨hcollapsed, _, htoggle⟩ := displayedReservations_spec
    { selectedCount := 1, whitelist := List.replicate 12 ⟨"0xA", 1⟩,
      totalReserved := 12, loading := false, expanded := false }
  obtain ⟨ha, hb, hsuf⟩ := hcollapsed rfl
  exact ⟨ha, hb, hsuf, htoggle⟩

/-- Whether an event is a user-visible alert. -/
def isAlert : Event → Bool
  | Event.alert _ => true
  | _ => false

/-- C8: whenever the attempt throws — at submission, at the wait, or at the
remote write — exactly one alert is surfaced, and it is the classified
message: the insufficient-funds text for code INSUFFICIENT_FUNDS, the
call-rejection text for code CALL_EXCEPTION, and otherwise the SDK reason,
else the SDK message, else the fixed fallback. -/
theorem handleReserve_error_alert (s : ComponentState) (w r : String)
    (tx : TxOutcome) (p : Option TxError) (e : TxError)
    (hcap : s.totalReserved + s.selectedCount ≤ 333)
    (herr : tx = TxOutcome.sendFailed e ∨ tx = TxOutcome.waitFailed e ∨
      (tx = TxOutcome.confirmed ∧ p = some e)) :
    (handleReserve (some w) r 33139 tx p s).2.filter isAlert =
      [Event.alert (classifyError e)] ∧
    (e.code = some "INSUFFICIENT_FUNDS" → classifyError e = insufficientFundsMsg) ∧
    (e.code ≠ some "INSUFFICIENT_FUNDS" → e.code = some "CALL_EXCEPTION" →
      classifyError e = callExceptionMsg) ∧
    (e.code ≠ some "INSUFFICIENT_FUNDS" → e.code ≠ some "CALL_EXCEPTION" →
      classifyError e = jsOrElse e.reason (jsOrElse e.message genericFallbackMsg)) := by
  have hc : ¬ (s.totalReserved + s.selectedCount > 333) := by omega
  refine ⟨?_, ?_, ?_, ?_⟩
  · rcases herr with h | h | ⟨h, hp⟩
    · subst h
      cases p <;> simp [handleReserve, hc, isAlert]
    · subst h
      cases p <;> simp [handleReserve, hc, isAlert]
    · subst h
      subst hp
      simp [handleReserve, hc, isAlert]
  · intro h
    simp [classifyError, h]
  · intro h1 h2
    simp [classifyError, h1, h2]
  · intro h1 h2
    rw [classifyError, if_neg h1, if_neg h2]

/-- C8 witness: a wait failure with code INSUFFICIENT_FUNDS from the concrete
repeat state surfaces exactly the insufficient-funds alert. -/
theorem handleReserve_error_alert_witness :
    (handleReserve (some "0xA") "0xR" 33139
        (TxOutcome.waitFailed ⟨some "INSUFFICIENT_FUNDS", none, none⟩) none
        repeatSample).2.filter isAlert =
      [Event.alert (classifyError ⟨some "INSUFFICIENT_FUNDS", none, none⟩)] ∧
    ((⟨some "INSUFFICIENT_FUNDS", none, none⟩ : TxError).code =
        some "INSUFFICIENT_FUNDS" →
      classifyError ⟨some "INSUFFICIENT_FUNDS", none, none⟩ = insufficientFundsMsg) ∧
    ((⟨some "INSUFFICIENT_FUNDS", none, none⟩ : TxError).code ≠
        some "INSUFFICIENT_FUNDS" →
      (⟨some "INSUFFICIENT_FUNDS", none, none⟩ : TxError).code =
        some "CALL_EXCEPTION" →
      classifyError ⟨some "INSUFFICIENT_FUNDS", none, none⟩ = callExceptionMsg) ∧
    ((⟨some "INSUFFICIENT_FUNDS", none, none⟩ : TxError).code ≠
        some "INSUFFICIENT_FUNDS" →
      (⟨some "INSUFFICIENT_FUNDS", none, none⟩ : TxError).code ≠
        some "CALL_EXCEPTION" →
      classifyError ⟨some "INSUFFICIENT_FUNDS", none, none⟩ =
        jsOrElse (⟨some "INSUFFICIENT_FUNDS", none, none⟩ : TxError).reason
          (jsOrElse (⟨some "INSUFFICIENT_FUNDS", none, none⟩ : TxError).message
            genericFallbackMsg)) :=
  handleReserve_error_alert repeatSample "0xA" "0xR"
    (TxOutcome.waitFailed ⟨some "INSUFFICIENT_FUNDS", none, none⟩) none
    ⟨some "INSUFFICIENT_FUNDS", none, none⟩ (by decide) (Or.inr (Or.inl rfl))

/-- C9 counterexample: on the no-wallet early return — which happens before
`setLoading(true)` and outside the try/finally — `loading` is not reset: a
call entered with `loading = true` exits with `loading = true`. -/
theorem loading_reset_cex :
    (handleReserve none "0xR" 33139 TxOutcome.confirmed none
      { selectedCount := 1, whitelist := [], totalReserved := 0,
        loading := true, expanded := false }).1.loading = true := by
  decide

/-- C9 (amended): the optimistic local update (new whitelist and incremented
total) is emitted strictly before the `updateWhitelist` call, and when that
call throws the updated local values are kept — no rollback.  `loading` ends
false on every exit path that passes the wallet check; the no-wallet early
return instead leaves the whole state, `loading` included, unchanged. -/
theorem handleReserve_optimistic_no_rollback (s : ComponentState) (w r : String)
    (e : TxError) (hcap : s.totalReserved + s.selectedCount ≤ 333) :
    (handleReserve (some w) r 33139 TxOutcome.confirmed (some e) s).1.whitelist =
      updatedWhitelistFor w s.selectedCount s.whitelist ∧
    (handleReserve (some w) r 33139 TxOutcome.confirmed (some e) s).1.totalReserved =
      s.totalReserved + s.selectedCount ∧
    (handleReserve (some w) r 33139 TxOutcome.confirmed (some e) s).2 =
      [Event.sendTransaction r (parseEther (Nat.repr (s.selectedCount * 2))),
        Event.txWait, Event.localUpdate, Event.persistUpdate w s.selectedCount,
        Event.alert (classifyError e)] ∧
    (∀ w2 chain tx p, (handleReserve (some w2) r chain tx p s).1.loading = false) ∧
    (∀ chain tx p, (handleReserve none r chain tx p s).1 = s) := by
  have hc : ¬ (s.totalReserved + s.selectedCount > 333) := by omega
  refine ⟨?_, ?_, ?_, ?_, ?_⟩
  · simp [handleReserve, hc]
  · simp [handleReserve, hc]
  · simp [handleReserve, hc]
  · intro w2 chain tx p
    by_cases hchain : chain = 33139
    · subst hchain
      by_cases hcap2 : s.totalReserved + s.selectedCount > 333
      · simp [handleReserve, hcap2]
      · cases tx <;> cases p <;> simp [handleReserve, hcap2]
    · simp [handleReserve, hchain]
  · intro chain tx p
    rfl

/-- C9 witness for the amended claim: from the concrete repeat state with a
failing persistence write, the merged entry and incremented total survive,
the local update precedes the remote write in the trace, and loading ends
false. -/
theorem handleReserve_optimistic_no_rollback_witness :
    (handleReserve (some "0xA") "0xR" 33139 TxOutcome.confirmed
        (some ⟨none, none, none⟩) repeatSample).1.whitelist =
      updatedWhitelistFor "0xA" repeatSample.selectedCount repeatSample.whitelist ∧
    (handleReserve (some "0xA") "0xR" 33139 TxOutcome.confirmed
        (some ⟨none, none, none⟩) repeatSample).1.totalReserved =
      repeatSample.totalReserved + repeatSample.selectedCount ∧
    (handleReserve (some "0xA") "0xR" 33139 TxOutcome.confirmed
        (some ⟨none, none, none⟩) repeatSample).2 =
      [Event.sendTransaction "0xR"
          (parseEther (Nat.repr (repeatSample.selectedCount * 2))),
        Event.txWait, Event.localUpdate,
        Event.persistUpdate "0xA" repeatSample.selectedCount,
        Event.alert (classifyError ⟨none, none, none⟩)] ∧
    (∀ w2 chain tx p,
      (handleReserve (some w2) "0xR" chain tx p repeatSample).1.loading = false) ∧
    (∀ chain tx p, (handleReserve none "0xR" chain tx p repeatSample).1 = repeatSample) :=
  handleReserve_optimistic_no_rollback repeatSample "0xA" "0xR" ⟨none, none, none⟩
    (by decide)

/-- C10: when the whitelist has at most 10 entries the collapsed display
already equals the whole list, so the expanded flag changes nothing; and the
Show All / Show Less button is rendered exactly when the whitelist has
strictly more than 10 entries. -/
theorem displayed_small_whitelist (s : ComponentState)
    (h : s.whitelist.length ≤ 10) :
    displayedReservations s = s.whitelist ∧
    (showToggleRendered s = true ↔ 10 < s.whitelist.length) := by
  constructor
  · by_cases he : s.expanded
    · simp [displayedReservations, he]
    · simp [displayedReservations, he, Nat.sub_eq_zero_of_le h]
  · simp [showToggleRendered]

/-- C10 witness: with two entries the collapsed view is the full list and no
toggle button is rendered. -/
theorem displayed_small_whitelist_witness :
    displayedReservations
        { selectedCount := 1, whitelist := [⟨"0xA", 2⟩, ⟨"0xB", 1⟩],
          totalReserved := 3, loading := false, expanded := false } =
      ({ selectedCount := 1, whitelist := [⟨"0xA", 2⟩, ⟨"0xB", 1⟩],
          totalReserved := 3, loading := false, expanded := false } :
        ComponentState).whitelist ∧
    (showToggleRendered
        { selectedCount := 1, whitelist := [⟨"0xA", 2⟩, ⟨"0xB", 1⟩],
          totalReserved := 3, loading := false, expanded := false } = true ↔
      10 < ({ selectedCount := 1, whitelist := [⟨"0xA", 2⟩, ⟨"0xB", 1⟩],
              totalReserved := 3, loading := false, expanded := false } :
        ComponentState).whitelist.length) :=
  displayed_small_whitelist
    { selectedCount := 1, whitelist := [⟨"0xA", 2⟩, ⟨"0xB", 1⟩],
      totalReserved := 3, loading := false, expanded := false } (by decide)
